import Mathlib

/-!
Verification of the OrchestraGuard decision pipeline
(backend/core/engine.py, backend/schemas/models.py).

The Python code is shallowly embedded: the engine's async methods become
pure functions over an explicit `EngineState`, with the external
collaborators (policy store, reasoning oracle, wall clock) passed in as an
`Env` value.  Python exceptions become `Except PyErr`, with the
constructor of `PyErr` recording which `except` clauses would catch the
exception.  Python library primitives used by the engine (str methods,
json.loads, re, datetime arithmetic) are modelled by executable Lean
functions on `String`/`Json`, faithful on the fragment the engine
exercises.
-/

namespace OrchestraGuard

/-! ## Python string primitives -/

/-- Model of Python str.upper for the ASCII strings the engine handles. -/
def sUpper (s : String) : String := String.mk (s.toList.map Char.toUpper)

/-- Model of Python str.lower for the ASCII strings the engine handles. -/
def sLower (s : String) : String := String.mk (s.toList.map Char.toLower)

/-- Helper for str.find: index of the first occurrence of the pattern. -/
def findSubAux (needle : List Char) : List Char → Nat → Option Nat
  | [], i => if needle.isEmpty then some i else none
  | c :: t, i =>
    if needle.isPrefixOf (c :: t) then some i else findSubAux needle t (i + 1)

/-- Model of Python `hay.find(needle)` (returns `none` for -1). -/
def pyFind (hay needle : String) : Option Nat :=
  findSubAux needle.toList hay.toList 0

/-- Model of the Python membership test `needle in hay` on strings. -/
def strContains (hay needle : String) : Bool :=
  (pyFind hay needle).isSome

/-- Model of Python `hay.find(needle, start)`. -/
def pyFindFrom (hay needle : String) (start : Nat) : Option Nat :=
  (findSubAux needle.toList (hay.toList.drop start) 0).map (· + start)

/-- Model of Python slicing `s[a:]`. -/
def pySliceFrom (s : String) (a : Nat) : String := String.mk (s.toList.drop a)

/-- Model of Python slicing `s[:b]`. -/
def pyTake (s : String) (b : Nat) : String := String.mk (s.toList.take b)

/-- Model of Python slicing `s[a:b]`. -/
def pySlice (s : String) (a b : Nat) : String :=
  String.mk ((s.toList.take b).drop a)

/-- The whitespace characters stripped by Python str.strip. -/
def pyIsSpace (c : Char) : Bool :=
  c = ' ' ∨ c = '\t' ∨ c = '\n' ∨ c = '\r' ∨ c = '\x0b' ∨ c = '\x0c'

/-- Model of Python str.strip (whitespace removed at both ends). -/
def pyStrip (s : String) : String :=
  String.mk (((s.toList.dropWhile pyIsSpace).reverse.dropWhile pyIsSpace).reverse)

/-- Model of Python `s.startswith(p)`. -/
def pyStartsWith (s p : String) : Bool := p.toList.isPrefixOf s.toList

/-! ## JSON values (the result of Python json.loads) -/

/-- A parsed JSON value, as produced by Python's `json.loads`. -/
inductive Json where
  | null
  | bool (b : Bool)
  | num (n : Int)
  | str (s : String)
  | arr (elems : List Json)
  | obj (fields : List (String × Json))

/-- Python dict insertion used while parsing an object: a repeated key
overwrites the earlier value (json.loads keeps the last occurrence). -/
def addField (fields : List (String × Json)) (k : String) (v : Json) :
    List (String × Json) :=
  (fields.filter (fun kv => kv.1 ≠ k)) ++ [(k, v)]

/-- Python dict lookup `d.get(k)` on a parsed JSON object. -/
def dictFind (fields : List (String × Json)) (k : String) : Option Json :=
  (fields.find? (fun kv => kv.1 = k)).map (·.2)

/-- JSON whitespace accepted between tokens by json.loads. -/
def isJsonWs (c : Char) : Bool := c = ' ' ∨ c = '\t' ∨ c = '\n' ∨ c = '\r'

def skipWs (cs : List Char) : List Char := cs.dropWhile isJsonWs

/-- String-literal body: characters up to the closing quote, with the
escapes the engine's replies use.  Unsupported escapes fail the parse. -/
def parseJsonStringBody (acc : List Char) : List Char → Option (String × List Char)
  | [] => none
  | '"' :: rest => some (String.mk acc.reverse, rest)
  | '\\' :: e :: rest =>
    if e = '"' then parseJsonStringBody ('"' :: acc) rest
    else if e = '\\' then parseJsonStringBody ('\\' :: acc) rest
    else if e = '/' then parseJsonStringBody ('/' :: acc) rest
    else if e = 'n' then parseJsonStringBody ('\n' :: acc) rest
    else if e = 't' then parseJsonStringBody ('\t' :: acc) rest
    else if e = 'r' then parseJsonStringBody ('\r' :: acc) rest
    else none
  | '\\' :: [] => none
  | c :: rest => parseJsonStringBody (c :: acc) rest

def parseJsonDigits (acc : Nat) : List Char → Nat × List Char
  | [] => (acc, [])
  | c :: rest =>
    if c.isDigit then parseJsonDigits (acc * 10 + (c.toNat - '0'.toNat)) rest
    else (acc, c :: rest)

/-- Integer literals (the engine's replies never use fractions/exponents;
a fraction or exponent makes this model fail the parse). -/
def parseJsonNumber (cs : List Char) : Option (Int × List Char) :=
  match cs with
  | '-' :: rest =>
    match rest with
    | c :: _ =>
      if c.isDigit then
        let (n, rest') := parseJsonDigits 0 rest
        match rest' with
        | '.' :: _ => none
        | 'e' :: _ => none
        | 'E' :: _ => none
        | _ => some (-(n : Int), rest')
      else none
    | [] => none
  | c :: _ =>
    if c.isDigit then
      let (n, rest') := parseJsonDigits 0 cs
      match rest' with
      | '.' :: _ => none
      | 'e' :: _ => none
      | 'E' :: _ => none
      | _ => some ((n : Int), rest')
    else none
  | [] => none

mutual

/-- Fueled recursive-descent model of json.loads' value grammar. -/
def parseJsonVal (fuel : Nat) (cs : List Char) : Option (Json × List Char) :=
  match fuel with
  | 0 => none
  | fuel + 1 =>
    match skipWs cs with
    | 'n' :: 'u' :: 'l' :: 'l' :: rest => some (.null, rest)
    | 't' :: 'r' :: 'u' :: 'e' :: rest => some (.bool true, rest)
    | 'f' :: 'a' :: 'l' :: 's' :: 'e' :: rest => some (.bool false, rest)
    | '"' :: rest =>
      (parseJsonStringBody [] rest).map (fun p => (.str p.1, p.2))
    | '\x7b' :: rest =>
      match skipWs rest with
      | '\x7d' :: rest' => some (.obj [], rest')
      | rest' => (parseJsonMembers fuel rest' []).map (fun p => (.obj p.1, p.2))
    | '[' :: rest =>
      match skipWs rest with
      | ']' :: rest' => some (.arr [], rest')
      | rest' => (parseJsonElems fuel rest' []).map (fun p => (.arr p.1, p.2))
    | rest => (parseJsonNumber rest).map (fun p => (.num p.1, p.2))

/-- Members of a JSON object after the opening brace (non-empty case). -/
def parseJsonMembers (fuel : Nat) (cs : List Char)
    (acc : List (String × Json)) : Option (List (String × Json) × List Char) :=
  match fuel with
  | 0 => none
  | fuel + 1 =>
    match skipWs cs with
    | '"' :: rest =>
      match parseJsonStringBody [] rest with
      | none => none
      | some (k, rest') =>
        match skipWs rest' with
        | ':' :: rest'' =>
          match parseJsonVal fuel rest'' with
          | none => none
          | some (v, rest''') =>
            match skipWs rest''' with
            | ',' :: more => parseJsonMembers fuel more (addField acc k v)
            | '\x7d' :: more => some (addField acc k v, more)
            | _ => none
        | _ => none
    | _ => none

/-- Elements of a JSON array after the opening bracket (non-empty case). -/
def parseJsonElems (fuel : Nat) (cs : List Char)
    (acc : List Json) : Option (List Json × List Char) :=
  match fuel with
  | 0 => none
  | fuel + 1 =>
    match parseJsonVal fuel cs with
    | none => none
    | some (v, rest) =>
      match skipWs rest with
      | ',' :: more => parseJsonElems fuel more (acc ++ [v])
      | ']' :: more => some (acc ++ [v], more)
      | _ => none

end

/-- Model of Python `json.loads`: the whole input must be one JSON value
surrounded by optional whitespace; `none` models `json.JSONDecodeError`. -/
def jsonLoads (s : String) : Option Json :=
  match parseJsonVal (s.length + 1) s.toList with
  | none => none
  | some (v, rest) => if (skipWs rest).isEmpty then some v else none

/-! ## Python exceptions

The constructor records the exception class, which determines which
`except` clauses catch it.  `jsonDecodeError` models `json.JSONDecodeError`
(caught by its own clause in `_parse_llm_response`), `valueError` models
`ValueError` and pydantic's `ValidationError` (a `ValueError` subclass),
`keyError` models `KeyError`, `typeError` models `TypeError`/`AttributeError`
(caught by no clause narrower than `except Exception`), and `exception`
models a plain `Exception`. -/

inductive PyErr where
  | keyError (msg : String)
  | valueError (msg : String)
  | typeError (msg : String)
  | jsonDecodeError (msg : String)
  | exception (msg : String)
deriving Repr, DecidableEq

/-- Model of Python `str(e)` on a caught exception: the message text. -/
def pyErrStr : PyErr → String
  | .keyError m => m
  | .valueError m => m
  | .typeError m => m
  | .jsonDecodeError m => m
  | .exception m => m

/-! ## Enums (backend/schemas/models.py) -/

inductive DecisionEnum where
  | ALLOW
  | BLOCK
  | FLAG
deriving Repr, DecidableEq

/-- Pydantic value lookup `DecisionEnum(s)` (case-sensitive). -/
def DecisionEnum.ofString? : String → Option DecisionEnum
  | "ALLOW" => some .ALLOW
  | "BLOCK" => some .BLOCK
  | "FLAG" => some .FLAG
  | _ => none

inductive SeverityEnum where
  | HIGH
  | MEDIUM
  | LOW
deriving Repr, DecidableEq

/-- Pydantic value lookup `SeverityEnum(s)` (case-sensitive). -/
def SeverityEnum.ofString? : String → Option SeverityEnum
  | "HIGH" => some .HIGH
  | "MEDIUM" => some .MEDIUM
  | "LOW" => some .LOW
  | _ => none

inductive ActionOnViolationEnum where
  | BLOCK
  | FLAG
deriving Repr, DecidableEq

def ActionOnViolationEnum.ofString? : String → Option ActionOnViolationEnum
  | "BLOCK" => some .BLOCK
  | "FLAG" => some .FLAG
  | _ => none

/-! ## InterceptedAction (backend/schemas/models.py) -/

/-- An intercepted agent action after the system boundary has filled in
`action_id` (main.py generates a uuid when absent) and the timestamp
validator has filled in `timestamp`.  `tool_arguments`/`user_context` are
opaque JSON maps; the serializability check always passes for them. -/
structure InterceptedAction where
  action_id : String
  source_agent : String
  target_tool : String
  tool_arguments : List (String × Json)
  user_context : Option (List (String × Json))
  timestamp : Nat
deriving Inhabited

/-- Pydantic validation of an `InterceptedAction`: the `source_agent` and
`target_tool` length constraints run first (as field validators), then the
`validate_action` model validator prepends the `agent_` marker to
`source_agent` when it is missing. -/
def validateInterceptedAction (a : InterceptedAction) : Except PyErr InterceptedAction :=
  if a.source_agent.length < 1 ∨ a.source_agent.length > 200 then
    .error (.valueError "source_agent length out of range")
  else if a.target_tool.length < 1 ∨ a.target_tool.length > 100 then
    .error (.valueError "target_tool length out of range")
  else
    .ok { a with
      source_agent :=
        if pyStartsWith a.source_agent "agent_" then a.source_agent
        else "agent_" ++ a.source_agent }

/-! ## PolicyRule (backend/schemas/models.py) -/

structure PolicyRule where
  rule_id : String
  description : String
  target_tool_regex : String
  condition_logic : String
  severity : SeverityEnum
  action_on_violation : ActionOnViolationEnum
deriving Repr, DecidableEq

/-- The `rule_id` pattern constraint: two uppercase letters (codepoints
65-90), a dash and three ASCII digits (codepoints 48-57), as in the regex
anchored at both ends. -/
def ruleIdPatternOk (s : String) : Bool :=
  match s.toList with
  | [a, b, d, x, y, z] =>
    (65 ≤ a.toNat ∧ a.toNat ≤ 90) ∧ (65 ≤ b.toNat ∧ b.toNat ≤ 90) ∧
      d = '-' ∧ (48 ≤ x.toNat ∧ x.toNat ≤ 57) ∧
      (48 ≤ y.toNat ∧ y.toNat ≤ 57) ∧ (48 ≤ z.toNat ∧ z.toNat ≤ 57)
  | _ => false

/-- The dangerous keyword list checked by `validate_python_logic`. -/
def dangerousKeywords : List String :=
  ["import", "exec", "eval", "__", "open(", "os.", "sys.",
   "subprocess", "compile", "execfile", "input"]

/-- Pydantic construction `PolicyRule(...)` from raw strings: field
constraints, enum coercion, and the condition-logic keyword screen.  The
`compile()` syntax probe of `validate_python_logic` is not modelled: it is
treated as passing, so this model accepts every record the source accepts
and possibly a few it would reject; no theorem below relies on a record
with syntactically invalid condition text being accepted. -/
def mkPolicyRule (rule_id description target_tool_regex condition_logic
    severity action_on_violation : String) : Option PolicyRule :=
  if ¬ ruleIdPatternOk rule_id then none
  else if description.length < 10 ∨ description.length > 500 then none
  else if target_tool_regex.length < 1 ∨ target_tool_regex.length > 200 then none
  else if condition_logic.length < 1 ∨ condition_logic.length > 1000 then none
  else if dangerousKeywords.any (fun k => strContains (sLower condition_logic) k) then none
  else
    match SeverityEnum.ofString? severity, ActionOnViolationEnum.ofString? action_on_violation with
    | some sev, some act =>
      some { rule_id, description, target_tool_regex, condition_logic,
             severity := sev, action_on_violation := act }
    | _, _ => none

/-! ## Decision (backend/schemas/models.py) -/

structure Decision where
  action_id : String
  source_agent : String
  target_tool : String
  decision : DecisionEnum
  rationale : String
  severity : Option SeverityEnum
  timestamp : Nat
  applied_rules : List String
deriving Repr, DecidableEq

/-- Pydantic construction `Decision(...)` with every field passed
explicitly, as the engine always does: the `rationale` length bounds
(min 10, max 1000) and the `validate_severity_decision` field validator
(BLOCK requires a severity).  A failure models `ValidationError`, a
`ValueError` subclass. -/
def mkDecision (action_id source_agent target_tool : String)
    (decision : DecisionEnum) (rationale : String)
    (severity : Option SeverityEnum) (timestamp : Nat)
    (applied_rules : List String) : Except PyErr Decision :=
  if rationale.length < 10 then
    .error (.valueError "String should have at least 10 characters")
  else if rationale.length > 1000 then
    .error (.valueError "String should have at most 1000 characters")
  else if decision = DecisionEnum.BLOCK ∧ severity = none then
    .error (.valueError "BLOCK decisions must have a severity")
  else
    .ok { action_id, source_agent, target_tool, decision, rationale,
          severity, timestamp, applied_rules }

/-! ## Python operations on parsed JSON values -/

/-- Python `key in data` where `data` came from json.loads: key lookup on a
dict, element equality on a list, substring test on a str, `TypeError`
otherwise. -/
def pyContainsKey (data : Json) (key : String) : Except PyErr Bool :=
  match data with
  | .obj kvs => .ok (kvs.any (fun kv => kv.1 = key))
  | .arr xs => .ok (xs.any (fun e => match e with | .str s => s = key | _ => false))
  | .str s => .ok (strContains s key)
  | _ => .error (.typeError "argument of type is not iterable")

/-- Python `data[key]` with a string key. -/
def pyGetItem (data : Json) (key : String) : Except PyErr Json :=
  match data with
  | .obj kvs =>
    match dictFind kvs key with
    | some v => .ok v
    | none => .error (.keyError key)
  | _ => .error (.typeError "indices must be integers")

/-- Python `v.upper()` on a JSON value: only strings have the attribute;
the `AttributeError` raised otherwise is modelled as `typeError` (both are
caught only by `except Exception`). -/
def pyUpperJ (v : Json) : Except PyErr String :=
  match v with
  | .str s => .ok (sUpper s)
  | _ => .error (.typeError "no attribute upper")

/-- Python `v.lower()` on a JSON value. -/
def pyLowerJ (v : Json) : Except PyErr String :=
  match v with
  | .str s => .ok (sLower s)
  | _ => .error (.typeError "no attribute lower")

/-- Python truthiness of a JSON value. -/
def jsonTruthy : Json → Bool
  | .null => false
  | .bool b => b
  | .num n => n ≠ 0
  | .str s => s ≠ ""
  | .arr xs => ¬ xs.isEmpty
  | .obj kvs => ¬ kvs.isEmpty

/-- Python repr of a string (used inside container str()). -/
def pyReprStr (s : String) : String :=
  String.singleton (Char.ofNat 39) ++ s ++ String.singleton (Char.ofNat 39)

mutual

/-- Model of Python `str(v)` on a value from json.loads. -/
def pyStrFuel (fuel : Nat) (v : Json) : String :=
  match fuel with
  | 0 => ""
  | fuel + 1 =>
    match v with
    | .null => "None"
    | .bool true => "True"
    | .bool false => "False"
    | .num n => toString n
    | .str s => s
    | .arr xs => "[" ++ pyStrList fuel xs ++ "]"
    | .obj kvs => "\x7b" ++ pyStrFields fuel kvs ++ "\x7d"

def pyStrList (fuel : Nat) (xs : List Json) : String :=
  match fuel with
  | 0 => ""
  | fuel + 1 =>
    match xs with
    | [] => ""
    | [x] => pyStrInner fuel x
    | x :: rest => pyStrInner fuel x ++ ", " ++ pyStrList fuel rest

def pyStrFields (fuel : Nat) (kvs : List (String × Json)) : String :=
  match fuel with
  | 0 => ""
  | fuel + 1 =>
    match kvs with
    | [] => ""
    | [kv] => pyReprStr kv.1 ++ ": " ++ pyStrInner fuel kv.2
    | kv :: rest => pyReprStr kv.1 ++ ": " ++ pyStrInner fuel kv.2 ++ ", " ++ pyStrFields fuel rest

/-- Inside containers Python prints the repr, so strings get quoted. -/
def pyStrInner (fuel : Nat) (v : Json) : String :=
  match fuel with
  | 0 => ""
  | fuel + 1 =>
    match v with
    | .str s => pyReprStr s
    | w => pyStrFuel fuel w

end

/-- Model of Python `str(v)` (fuel large enough for any value met here). -/
def pyStr (v : Json) : String := pyStrFuel 1000 v

/-! ## JSON extraction strategies (engine.py `_extract_json_from_response`) -/

/-- The brace-balance scan of `_extract_complete_json`: index of the
closing brace matching the object that starts the content (a stack of
opening braces, popped only when non-empty). -/
def braceScan : List Char → Nat → Nat → Option Nat
  | [], _, _ => none
  | c :: cs, depth, i =>
    if c = '\x7b' then braceScan cs (depth + 1) (i + 1)
    else if c = '\x7d' then
      match depth with
      | 0 => braceScan cs 0 (i + 1)
      | 1 => some i
      | d + 2 => braceScan cs (d + 1) (i + 1)
    else braceScan cs depth (i + 1)

/-- Model of `_extract_complete_json`: a balanced JSON object from the first
character, if the content starts with an opening brace. -/
def extractCompleteJson (content : String) : Option String :=
  if pyStartsWith content "\x7b" then
    (braceScan content.toList 0 0).map (fun i => pyTake content (i + 1))
  else none

/-- Model of `_extract_json_between_markers`. -/
def extractJsonBetweenMarkers (content startMarker endMarker : String) :
    Option String :=
  match pyFind content startMarker with
  | none => none
  | some startIdx =>
    let s := startIdx + startMarker.length
    match pyFindFrom content endMarker s with
    | none => none
    | some endIdx => some (pyStrip (pySlice content s endIdx))

/-- Model of `_extract_json_after_phrase`. -/
def extractJsonAfterPhrase (content phrase : String) : Option String :=
  match pyFind content phrase with
  | none => none
  | some phraseIdx =>
    extractCompleteJson (pyStrip (pySliceFrom content (phraseIdx + phrase.length)))

/-- A maximal run of non-brace characters, as matched by a greedy
bracketed-negation group in the `_find_json_like_structure` pattern. -/
def nonBraceRun (cs : List Char) : List Char × List Char :=
  cs.span (fun c => c ≠ '\x7b' ∧ c ≠ '\x7d')

/-- One attempt of the `_find_json_like_structure` regex at a position
whose first character is an opening brace.  The pattern's first
alternative matches a two-level brace structure, the second a flat one;
since the runs are maximal the match is deterministic.  Returns the match
and the remaining input. -/
def jsonLikeMatchAt (cs : List Char) : Option (List Char × List Char) :=
  match cs with
  | '\x7b' :: rest =>
    let (run1, after1) := nonBraceRun rest
    match after1 with
    | '\x7b' :: rest2 =>
      let (run2, after2) := nonBraceRun rest2
      match after2 with
      | '\x7d' :: rest3 =>
        let (run3, after3) := nonBraceRun rest3
        match after3 with
        | '\x7d' :: rest4 =>
          some ('\x7b' :: run1 ++ '\x7b' :: run2 ++ '\x7d' :: run3 ++ ['\x7d'], rest4)
        | _ => none
      | _ => none
    | '\x7d' :: rest2 => some ('\x7b' :: run1 ++ ['\x7d'], rest2)
    | _ => none
  | _ => none

/-- The left-to-right non-overlapping scan of `re.findall` for the
json-like pattern (fueled by the input length). -/
def jsonLikeScan (fuel : Nat) (cs : List Char) : List String :=
  match fuel with
  | 0 => []
  | fuel + 1 =>
    match cs with
    | [] => []
    | c :: rest =>
      if c = '\x7b' then
        match jsonLikeMatchAt (c :: rest) with
        | some (m, remaining) => String.mk m :: jsonLikeScan fuel remaining
        | none => jsonLikeScan fuel rest
      else jsonLikeScan fuel rest

/-- Model of `_find_json_like_structure`: the first regex match that json.loads
accepts (the raw match text is returned, not the parsed value). -/
def findJsonLikeStructure (content : String) : Option String :=
  (jsonLikeScan content.length content.toList).find? (fun m => (jsonLoads m).isSome)

/-- Model of `_extract_json_from_response`: the ordered strategies; the first
truthy result wins (`None` and the empty string are both falsy). -/
def extractJsonFromResponse (content : String) : Option String :=
  [extractCompleteJson content,
   extractJsonBetweenMarkers content "```json" "```",
   extractJsonBetweenMarkers content "```" "```",
   extractJsonAfterPhrase content "Output:",
   extractJsonAfterPhrase content "Decision:",
   findJsonLikeStructure content].findSome?
    (fun r => match r with
      | some s => if s = "" then none else some s
      | none => none)

/-! ## Pattern matching (model of Python `re` for the resolver)

The engine compiles each cached `target_tool_regex` and prefix-matches it
against the target tool (`re.compile` + `pattern.match`), degrading to a
substring test when compilation fails.  The patterns the repository
stores are literals and literal-with-`.*` shapes, so `re` is modelled on
the fragment literal / `.` / postfix `*`; any other metacharacter is
treated as a compile failure (`re.error`), which the engine converts into
the substring fallback. -/

inductive RegexBase where
  | lit (c : Char)
  | dot
deriving Repr, DecidableEq

/-- A compiled atom: a base optionally under a Kleene star. -/
structure RegexAtom where
  base : RegexBase
  starred : Bool
deriving Repr, DecidableEq

/-- Metacharacters outside the modelled fragment: compiling them fails. -/
def regexUnsupported : List Char :=
  ['(', ')', '[', ']', '\\', '+', '?', '|', '^', '$', '\x7b', '\x7d']

/-- Model of `re.compile` on the supported fragment; `none` models
`re.error` (including a star with nothing to repeat). -/
def regexCompile : List Char → Option (List RegexAtom)
  | [] => some []
  | c :: '*' :: rest =>
    if c ∈ regexUnsupported ∨ c = '*' then none
    else
      let base := if c = '.' then RegexBase.dot else RegexBase.lit c
      (regexCompile rest).map (fun atoms => ⟨base, true⟩ :: atoms)
  | c :: rest =>
    if c ∈ regexUnsupported ∨ c = '*' then none
    else
      let base := if c = '.' then RegexBase.dot else RegexBase.lit c
      (regexCompile rest).map (fun atoms => ⟨base, false⟩ :: atoms)

def regexBaseMatch (b : RegexBase) (c : Char) : Bool :=
  match b with
  | .lit l => l = c
  | .dot => true

/-- The backtracking matcher under a fuel bound; every recursive call
shrinks the pattern or the input, so `patterns + input + 1` fuel is
exact. -/
def regexMatchFuel (fuel : Nat) (ps : List RegexAtom) (cs : List Char) : Bool :=
  match fuel with
  | 0 => false
  | fuel + 1 =>
    match ps with
    | [] => true
    | ⟨b, false⟩ :: ps' =>
      match cs with
      | [] => false
      | c :: cs' => regexBaseMatch b c && regexMatchFuel fuel ps' cs'
    | ⟨b, true⟩ :: ps' =>
      regexMatchFuel fuel ps' cs ||
        (match cs with
         | [] => false
         | c :: cs' => regexBaseMatch b c && regexMatchFuel fuel (⟨b, true⟩ :: ps') cs')

/-- Model of `pattern.match(s)`: does the pattern match a prefix of `s`. -/
def regexMatch (ps : List RegexAtom) (cs : List Char) : Bool :=
  regexMatchFuel (ps.length + cs.length + 1) ps cs

/-! ## Policy cache (engine.py) -/

/-- One entry of `_policy_cache[target_regex]`: the dict built by
`_load_active_policies`.  `policy_id` is `policy.get("id")`, which can be
`None`. -/
structure CacheEntry where
  policy_id : Option String
  policy_name : String
  rule : PolicyRule
deriving Repr, DecidableEq

/-- The `_policy_cache` defaultdict: pattern keys in insertion order, each
mapped to its list of entries. -/
abbrev PolicyCache := List (String × List CacheEntry)

/-- The `defaultdict(list)` append: extend the existing key's list or insert
the key at the end. -/
def cacheAppend (cache : PolicyCache) (key : String) (entry : CacheEntry) :
    PolicyCache :=
  match cache with
  | [] => [(key, [entry])]
  | (k, es) :: rest =>
    if k = key then (k, es ++ [entry]) :: rest
    else (k, es) :: cacheAppend rest key entry

/-- Engine in-memory state: the policy cache, the time of the last
successful refresh (seconds since the epoch), and the decision counters. -/
structure EngineState where
  policy_cache : PolicyCache
  cache_timestamp : Option Nat
  stats_total : Nat
  stats_allow : Nat
  stats_block : Nat
  stats_flag : Nat
deriving DecidableEq

/-! ## Policy store replies -/

/-- The `rules` JSONB column of one store row: either a dict (with
optional keys, read through `.get` with defaults) or some other JSON
value, which `_load_active_policies` skips silently. -/
inductive RulesData where
  | dict (rule_id description target_tool_regex condition_logic
      severity action_on_violation : Option String)
  | nonDict
deriving Repr, DecidableEq

/-- One well-formed row of the store reply, read through `.get`. -/
structure PolicyRecord where
  id : Option String
  name : Option String
  is_active : Bool
  rules : RulesData
deriving Repr, DecidableEq

/-- One element of the store reply: either a dict-shaped row or a value on
which the attribute accesses of the processing loop raise outside the
per-record `try` (e.g. a non-dict element, whose `.get` raises
`AttributeError`). -/
inductive StoreEntry where
  | record (p : PolicyRecord)
  | malformed
deriving Repr, DecidableEq

/-- The environment of one `process_action` call: the store reply a
refresh would receive, the outcome of each oracle attempt (`invoke`
results indexed by attempt number; an `error` is a raised exception), and
the wall clock, modelled as constant within the call. -/
structure Env where
  storeReply : Except Unit (List StoreEntry)
  oracle : Nat → Except String String
  now : Nat

/-! ## `_load_active_policies` -/

/-- Building the `PolicyRule` of one store record.  The default argument
`f"rule_{policy['id']}"` of `.get("rule_id", ...)` is evaluated eagerly,
so a record without an `id` raises `KeyError` into the per-record handler
(modelled by `none`) even when `rule_id` is present. -/
def buildCacheEntry (p : PolicyRecord)
    (rule_id description target_tool_regex condition_logic
      severity action_on_violation : Option String) : Option CacheEntry :=
  match p.id with
  | none => none
  | some pid =>
    (mkPolicyRule (rule_id.getD ("rule_" ++ pid))
        (description.getD "No description")
        (target_tool_regex.getD ".*")
        (condition_logic.getD "True")
        (severity.getD "MEDIUM")
        (action_on_violation.getD "BLOCK")).map
      (fun rule =>
        { policy_id := p.id, policy_name := p.name.getD "Unnamed Policy", rule })

/-- One iteration of the policy loop: inactive records and non-dict
`rules` values are passed over; a record whose rule fails validation is
skipped by the per-record `except`; a valid rule is appended under its
`target_tool_regex` key. -/
def cacheInsertOne (cache : PolicyCache) (p : PolicyRecord) : PolicyCache :=
  if ¬ p.is_active then cache
  else
    match p.rules with
    | .nonDict => cache
    | .dict rid desc tgt cond sev act =>
      match buildCacheEntry p rid desc tgt cond sev act with
      | none => cache
      | some entry => cacheAppend cache entry.rule.target_tool_regex entry

/-- The policy loop over the store reply, started after
`_policy_cache.clear()`.  A malformed (non-dict) element raises outside
the per-record `try`: the loop stops and the flag records that the
enclosing handler caught a fault (so `_cache_timestamp` is not updated). -/
def processPolicies : List StoreEntry → PolicyCache → PolicyCache × Bool
  | [], cache => (cache, true)
  | .malformed :: _, cache => (cache, false)
  | .record p :: rest, cache => processPolicies rest (cacheInsertOne cache p)

/-- Model of `_load_active_policies`: on a store failure the outer `except` leaves
the state untouched; otherwise the cache is cleared and repopulated in
place, and the timestamp advances only when the whole loop completed. -/
def loadActivePolicies (reply : Except Unit (List StoreEntry)) (now : Nat)
    (st : EngineState) : EngineState :=
  match reply with
  | .error _ => st
  | .ok entries =>
    match processPolicies entries [] with
    | (cache, true) => { st with policy_cache := cache, cache_timestamp := some now }
    | (cache, false) => { st with policy_cache := cache }

/-! ## `_ensure_fresh_policies` -/

/-- Model of `timedelta.seconds` of a non-negative elapsed time: the whole-second
component after the days are split off, i.e. the remainder modulo one
day. -/
def timedeltaSeconds (elapsed : Nat) : Nat := elapsed % 86400

/-- Model of `_ensure_fresh_policies` with the engine's `_cache_ttl = 60`: refresh
when never populated or when `(utcnow - timestamp).seconds` exceeds the
TTL.  The returned flag says whether a refresh was triggered (it is
triggered at most once per call). -/
def ensureFreshPolicies (reply : Except Unit (List StoreEntry)) (now : Nat)
    (st : EngineState) : EngineState × Bool :=
  match st.cache_timestamp with
  | none => (loadActivePolicies reply now st, true)
  | some ts =>
    if timedeltaSeconds (now - ts) > 60 then (loadActivePolicies reply now st, true)
    else (st, false)

/-! ## `_get_relevant_policies` -/

/-- Model of `_get_relevant_policies`: for each cached pattern, prefix-match the
compiled pattern against the target tool, or fall back to a substring
test when compilation fails, and concatenate the entries of every
matching pattern. -/
def getRelevantPolicies (cache : PolicyCache) (targetTool : String) :
    List CacheEntry :=
  cache.foldl
    (fun relevant keyed =>
      match regexCompile keyed.1.toList with
      | some atoms =>
        if regexMatch atoms targetTool.toList then relevant ++ keyed.2 else relevant
      | none =>
        if strContains targetTool keyed.1 then relevant ++ keyed.2 else relevant)
    []

/-! ## `_call_llm_with_retry` -/

/-- One oracle attempt: a raised exception stays an error, and a response
whose content is empty raises `ValueError("LLM returned empty response")`
inside the `try`, so it is treated as a failure too. -/
def attemptOutcome (r : Except String String) : Except String String :=
  match r with
  | .ok content =>
    if content = "" then .error "LLM returned empty response" else .ok content
  | .error e => .error e

/-- The retry loop of `_call_llm_with_retry`: up to `maxRetries` attempts;
after a failed attempt `i` (except the last) it sleeps
`baseDelay * 2 ^ i` seconds; exhausting the attempts raises.  Returns the
outcome together with the list of backoff sleeps performed. -/
def callLLMRetryAux (oracle : Nat → Except String String)
    (maxRetries baseDelay : Nat) :
    Nat → Nat → List Nat → Except String String × List Nat
  | _, 0, delays => (.error "LLM call failed: no attempts", delays)
  | attempt, remaining + 1, delays =>
    match attemptOutcome (oracle attempt) with
    | .ok content => (.ok content, delays)
    | .error e =>
      if attempt = maxRetries - 1 then
        (.error ("LLM call failed after " ++ toString maxRetries ++ " attempts: " ++ e),
         delays)
      else
        callLLMRetryAux oracle maxRetries baseDelay (attempt + 1) remaining
          (delays ++ [baseDelay * 2 ^ attempt])

/-- Model of `_call_llm_with_retry` at the engine's call site
(`max_retries=3`, `base_delay=1.0`): the loop runs `attempt` from 0 with 3
iterations remaining. -/
def callLLMWithRetry (oracle : Nat → Except String String) :
    Except String String × List Nat :=
  callLLMRetryAux oracle 3 1 0 3 []

/-! ## `_validate_decision_format` -/

/-- The `applied_rules` tail of `_validate_decision_format`. -/
def validateAppliedRulesField (data : Json) : Except PyErr Bool :=
  match pyContainsKey data "applied_rules" with
  | .error e => .error e
  | .ok hasApplied =>
    if hasApplied then
      match pyGetItem data "applied_rules" with
      | .error e => .error e
      | .ok av =>
        match av with
        | .arr _ => .ok true
        | _ => .ok false
    else .ok true

/-- The `severity` check of `_validate_decision_format` (`is not None`
guard, then enum coercion), followed by the `applied_rules` tail. -/
def validateSeverityField (data : Json) : Except PyErr Bool :=
  match pyContainsKey data "severity" with
  | .error e => .error e
  | .ok hasSeverity =>
    if hasSeverity then
      match pyGetItem data "severity" with
      | .error e => .error e
      | .ok sv =>
        match sv with
        | .null => validateAppliedRulesField data
        | _ =>
          match pyUpperJ sv with
          | .error e => .error e
          | .ok ss =>
            match SeverityEnum.ofString? ss with
            | none => .error (.valueError "is not a valid SeverityEnum")
            | some _ => validateAppliedRulesField data
    else validateAppliedRulesField data

/-- The `try` body of `_validate_decision_format`: required keys, decision
enum, optional severity enum, optional applied_rules list. -/
def validateDecisionFormatCore (data : Json) : Except PyErr Bool :=
  match pyContainsKey data "decision" with
  | .error e => .error e
  | .ok hasDecision =>
    if ¬ hasDecision then .ok false
    else
      match pyContainsKey data "rationale" with
      | .error e => .error e
      | .ok hasRationale =>
        if ¬ hasRationale then .ok false
        else
          match pyGetItem data "decision" with
          | .error e => .error e
          | .ok dv =>
            match pyUpperJ dv with
            | .error e => .error e
            | .ok ds =>
              match DecisionEnum.ofString? ds with
              | none => .error (.valueError "is not a valid DecisionEnum")
              | some _ => validateSeverityField data

/-- Model of `_validate_decision_format`: its `except (ValueError, KeyError)`
returns `False`; other exceptions propagate. -/
def validateDecisionFormat (data : Json) : Except PyErr Bool :=
  match validateDecisionFormatCore data with
  | .ok b => .ok b
  | .error (.valueError _) => .ok false
  | .error (.keyError _) => .ok false
  | .error (.jsonDecodeError _) => .ok false
  | .error e => .error e

/-! ## `_determine_applied_rules` -/

/-- Model of `_determine_applied_rules` on the parsed decision dict.  When the
oracle supplied an `applied_rules` list, each element is uppercased via
`str(...)` and kept when it occurs among the resolved rule ids; a
non-empty valid subset is returned as is.  Otherwise the branch on the
decision value applies: ALLOW returns every resolved rule id; BLOCK/FLAG
keep the rules whose id or description occurs in the lowercased
rationale, falling back to every resolved rule id; an unknown decision
returns the empty list. -/
def determineAppliedRules (kvs : List (String × Json))
    (relevantRules : List CacheEntry) : Except PyErr (List String) :=
  let providedValid : Option (List String) :=
    match dictFind kvs "applied_rules" with
    | some (.arr xs) =>
      let providedRules := xs.map (fun j => sUpper (pyStr j))
      let relevantRuleIds := relevantRules.map (fun e => e.rule.rule_id)
      let validRules := providedRules.filter (fun r => relevantRuleIds.contains r)
      if validRules.isEmpty then none else some validRules
    | _ => none
  match providedValid with
  | some validRules => .ok validRules
  | none =>
    match pyUpperJ ((dictFind kvs "decision").getD (.str "")) with
    | .error e => .error e
    | .ok decision =>
      if decision = "ALLOW" then
        .ok (relevantRules.map (fun e => e.rule.rule_id))
      else if decision = "BLOCK" ∨ decision = "FLAG" then
        match pyLowerJ ((dictFind kvs "rationale").getD (.str "")) with
        | .error e => .error e
        | .ok rationale =>
          let applied := (relevantRules.filter (fun e =>
            strContains rationale (sLower e.rule.rule_id) ||
            strContains rationale (sLower e.rule.description))).map
              (fun e => e.rule.rule_id)
          if applied.isEmpty then .ok (relevantRules.map (fun e => e.rule.rule_id))
          else .ok applied
      else .ok []

/-! ## `_parse_llm_response` -/

/-- The severity parse of `_parse_llm_response`: the Python-truthiness
guard, then the enum coercion whose `ValueError` is caught (leaving
severity `None` with a warning). -/
def parseSeverityField (kvs : List (String × Json)) :
    Except PyErr (Option SeverityEnum) :=
  match dictFind kvs "severity" with
  | some sv =>
    if jsonTruthy sv then
      match pyUpperJ sv with
      | .error e => .error e
      | .ok ss => .ok (SeverityEnum.ofString? ss)
    else .ok none
  | none => .ok none

/-- The slice `decision_data["rationale"][:1000]` followed by pydantic's string
check in the `Decision` constructor: a string is sliced; a list slices
but is then rejected by pydantic (`ValidationError`, a `ValueError`);
any other value does not support slicing and raises `TypeError`. -/
def rationaleSlice (v : Json) : Except PyErr String :=
  match v with
  | .str s => .ok (pyTake s 1000)
  | .arr _ => .error (.valueError "Input should be a valid string")
  | _ => .error (.typeError "is not subscriptable")

/-- Model of `_create_error_decision`: a BLOCK decision with severity HIGH and
`applied_rules = ["SYSTEM-ERROR"]` whose rationale embeds the message. -/
def createErrorDecision (action : InterceptedAction) (errorMessage : String)
    (now : Nat) : Except PyErr Decision :=
  mkDecision action.action_id action.source_agent action.target_tool
    DecisionEnum.BLOCK ("System error: " ++ errorMessage)
    (some SeverityEnum.HIGH) now ["SYSTEM-ERROR"]

/-- The `try` body of `_parse_llm_response`: strip, extract, decode,
validate, determine applied rules, parse severity, and construct the
`Decision`.  The non-dict fallback after a successful validation is
unreachable, because validation succeeds only on dicts. -/
def parseLLMResponseCore (content : String) (action : InterceptedAction)
    (relevantRules : List CacheEntry) (now : Nat) : Except PyErr Decision :=
  let stripped := pyStrip content
  match extractJsonFromResponse stripped with
  | none => .error (.valueError "No JSON found in LLM response")
  | some jsonContent =>
    match jsonLoads jsonContent with
    | none => .error (.jsonDecodeError "Expecting value")
    | some data =>
      match validateDecisionFormat data with
      | .error e => .error e
      | .ok formatOk =>
        if ¬ formatOk then .error (.valueError "Invalid decision format from LLM")
        else
          match data with
          | .obj kvs =>
            match determineAppliedRules kvs relevantRules with
            | .error e => .error e
            | .ok appliedRules =>
              match parseSeverityField kvs with
              | .error e => .error e
              | .ok severity =>
                match pyGetItem (.obj kvs) "decision" with
                | .error e => .error e
                | .ok dv =>
                  match pyUpperJ dv with
                  | .error e => .error e
                  | .ok ds =>
                    match DecisionEnum.ofString? ds with
                    | none => .error (.valueError "is not a valid DecisionEnum")
                    | some dec =>
                      match pyGetItem (.obj kvs) "rationale" with
                      | .error e => .error e
                      | .ok rv =>
                        match rationaleSlice rv with
                        | .error e => .error e
                        | .ok rationale =>
                          mkDecision action.action_id action.source_agent
                            action.target_tool dec rationale severity now
                            appliedRules
          | _ => .error (.typeError "validated decision data is not a dict")

/-- Model of `_parse_llm_response`: `except json.JSONDecodeError` and
`except (KeyError, ValueError)` convert the fault into
`_create_error_decision` (whose own constructor may raise further);
other exceptions propagate to `process_action`. -/
def parseLLMResponse (content : String) (action : InterceptedAction)
    (relevantRules : List CacheEntry) (now : Nat) : Except PyErr Decision :=
  match parseLLMResponseCore content action relevantRules now with
  | .ok d => .ok d
  | .error (.jsonDecodeError m) =>
    createErrorDecision action ("JSON parsing error: " ++ m) now
  | .error (.keyError m) =>
    createErrorDecision action ("LLM output validation failed: " ++ m) now
  | .error (.valueError m) =>
    createErrorDecision action ("LLM output validation failed: " ++ m) now
  | .error e => .error e

/-! ## `process_action` -/

/-- Model of `_update_stats`. -/
def updateStats (d : Decision) (st : EngineState) : EngineState :=
  let st' := { st with stats_total := st.stats_total + 1 }
  match d.decision with
  | .ALLOW => { st' with stats_allow := st'.stats_allow + 1 }
  | .BLOCK => { st' with stats_block := st'.stats_block + 1 }
  | .FLAG => { st' with stats_flag := st'.stats_flag + 1 }

/-- The `try` body of `process_action`: refresh the cache if stale,
resolve the relevant rules, short-circuit to the default ALLOW when no
rule applies, otherwise call the oracle with retries and parse its reply.
The notification and audit submissions are omitted from the model: both
swallow their own failures and do not affect the verdict, the state or
the control flow.  Returns the outcome, the engine state and the backoff
sleeps performed. -/
def processActionCore (env : Env) (st : EngineState)
    (action : InterceptedAction) :
    Except PyErr Decision × EngineState × List Nat :=
  let st1 := (ensureFreshPolicies env.storeReply env.now st).1
  let relevantRules := getRelevantPolicies st1.policy_cache action.target_tool
  if relevantRules.isEmpty then
    match mkDecision action.action_id action.source_agent action.target_tool
        DecisionEnum.ALLOW "No active policies defined for this tool" none
        env.now [] with
    | .ok d => (.ok d, updateStats d st1, [])
    | .error e => (.error e, st1, [])
  else
    match callLLMWithRetry env.oracle with
    | (.error e, sleeps) => (.error (.exception e), st1, sleeps)
    | (.ok content, sleeps) =>
      match parseLLMResponse content action relevantRules env.now with
      | .ok d => (.ok d, updateStats d st1, sleeps)
      | .error e => (.error e, st1, sleeps)

/-- Model of `process_action`: its `except Exception` builds the emergency BLOCK
decision, whose rationale embeds `str(e)` without truncation; the source
does not run `_update_stats` on this path.  When the emergency
constructor itself raises (rationale over pydantic's 1000-character
bound), the exception propagates to the caller. -/
def processAction (env : Env) (st : EngineState) (action : InterceptedAction) :
    Except PyErr Decision × EngineState × List Nat :=
  match processActionCore env st action with
  | (.ok d, st', sleeps) => (.ok d, st', sleeps)
  | (.error e, st', sleeps) =>
    match mkDecision action.action_id action.source_agent action.target_tool
        DecisionEnum.BLOCK
        ("System error in policy evaluation: " ++ pyErrStr e)
        (some SeverityEnum.HIGH) env.now ["SYSTEM-ERROR"] with
    | .ok d => (.ok d, st', sleeps)
    | .error e' => (.error e', st', sleeps)

/-! ## Concrete fixtures

A small engine state with one cached Slack rule, an intercepted action
targeting the Slack tool, and a family of oracle environments; these are
shared by the concrete runs below. -/

/-- A governance rule as the repository stores it (Scenario A shape). -/
def ruleDP : PolicyRule :=
  { rule_id := "DP-001", description := "No posting to public channels",
    target_tool_regex := "Slack_API_.*", condition_logic := "True",
    severity := .HIGH, action_on_violation := .BLOCK }

def entryDP : CacheEntry :=
  { policy_id := some "p1", policy_name := "Slack policy", rule := ruleDP }

/-- Engine state with the Slack rule cached, freshly refreshed at t=1000. -/
def st0 : EngineState :=
  { policy_cache := [("Slack_API_.*", [entryDP])], cache_timestamp := some 1000,
    stats_total := 0, stats_allow := 0, stats_block := 0, stats_flag := 0 }

/-- An intercepted action (already validated at the boundary). -/
def actC : InterceptedAction :=
  { action_id := "a1", source_agent := "agent_bot",
    target_tool := "Slack_API_PostMessage", tool_arguments := [],
    user_context := none, timestamp := 1000 }

/-- An environment whose oracle replies with fixed content at t=1030
(inside the TTL window, so no refresh happens). -/
def envWith (c : String) : Env :=
  { storeReply := .error (), oracle := fun _ => .ok c, now := 1030 }

/-- An environment whose oracle raises the same short error on every
attempt. -/
def envFailAll (msg : String) : Env :=
  { storeReply := .error (), oracle := fun _ => .error msg, now := 1030 }

/-- A prose oracle reply with no JSON in it (Scenario B shape). -/
def proseReply : String := "Sure, I think this is fine"

/-- A 1000-character provider failure message: long enough that the
emergency rationale embedding it exceeds the 1000-character bound of
`Decision.rationale`. -/
def hugeMsg : String := String.mk (List.replicate 1000 'x')

/-- An active store record whose rule fails validation (`rule_id` does not
match the two-letters-dash-three-digits pattern). -/
def pBad : PolicyRecord :=
  { id := some "p9", name := none, is_active := true,
    rules := .dict (some "BAD") none none none none none }

/-- The parse-failure verdict produced for `proseReply` under `envWith`. -/
def dProse : Decision :=
  { action_id := "a1", source_agent := "agent_bot",
    target_tool := "Slack_API_PostMessage", decision := .BLOCK,
    rationale := "System error: LLM output validation failed: No JSON found in LLM response",
    severity := some .HIGH, timestamp := 1030, applied_rules := ["SYSTEM-ERROR"] }

/-! ## Helper lemmas -/

theorem mkDecision_ok_iff {a s t : String} {dec : DecisionEnum} {r : String}
    {sev : Option SeverityEnum} {ts : Nat} {ar : List String} {d : Decision} :
    mkDecision a s t dec r sev ts ar = .ok d ↔
      (10 ≤ r.length ∧ r.length ≤ 1000 ∧ ¬(dec = .BLOCK ∧ sev = none) ∧
        d = { action_id := a, source_agent := s, target_tool := t,
              decision := dec, rationale := r, severity := sev,
              timestamp := ts, applied_rules := ar }) := by
  unfold mkDecision
  split
  · constructor
    · intro h; exact absurd h (by simp)
    · intro h; omega
  · split
    · constructor
      · intro h; exact absurd h (by simp)
      · intro h; omega
    · split
      · constructor
        · intro h; exact absurd h (by simp)
        · intro h; tauto
      · constructor
        · intro h
          refine ⟨by omega, by omega, by assumption, ?_⟩
          exact (Except.ok.injEq _ _).mp h |>.symm
        · intro h
          rw [h.2.2.2]

theorem mkDecision_ok_fields {a s t : String} {dec : DecisionEnum} {r : String}
    {sev : Option SeverityEnum} {ts : Nat} {ar : List String} {d : Decision}
    (h : mkDecision a s t dec r sev ts ar = .ok d) :
    d.action_id = a ∧ d.source_agent = s ∧ d.target_tool = t ∧
      d.decision = dec ∧ (d.decision = .BLOCK → d.severity ≠ none) := by
  obtain ⟨-, -, h3, h4⟩ := mkDecision_ok_iff.mp h
  subst h4
  refine ⟨rfl, rfl, rfl, rfl, ?_⟩
  intro hb hn
  exact h3 ⟨hb, hn⟩

theorem createErrorDecision_ok_fields {action : InterceptedAction}
    {msg : String} {now : Nat} {d : Decision}
    (h : createErrorDecision action msg now = .ok d) :
    d.action_id = action.action_id ∧ d.source_agent = action.source_agent ∧
      d.target_tool = action.target_tool ∧ d.decision = .BLOCK ∧
      (d.decision = .BLOCK → d.severity ≠ none) :=
  mkDecision_ok_fields h

theorem parseLLMResponseCore_ok_fields {content : String}
    {action : InterceptedAction} {rules : List CacheEntry} {now : Nat}
    {d : Decision} (h : parseLLMResponseCore content action rules now = .ok d) :
    d.action_id = action.action_id ∧ d.source_agent = action.source_agent ∧
      d.target_tool = action.target_tool ∧
      (d.decision = .BLOCK → d.severity ≠ none) := by
  unfold parseLLMResponseCore at h
  dsimp only [] at h
  repeat' split at h
  all_goals first
    | exact absurd h (by simp)
    | exact ⟨(mkDecision_ok_fields h).1, (mkDecision_ok_fields h).2.1,
        (mkDecision_ok_fields h).2.2.1, (mkDecision_ok_fields h).2.2.2.2⟩

theorem parseLLMResponse_ok_fields {content : String}
    {action : InterceptedAction} {rules : List CacheEntry} {now : Nat}
    {d : Decision} (h : parseLLMResponse content action rules now = .ok d) :
    d.action_id = action.action_id ∧ d.source_agent = action.source_agent ∧
      d.target_tool = action.target_tool ∧
      (d.decision = .BLOCK → d.severity ≠ none) := by
  unfold parseLLMResponse at h
  repeat' split at h
  all_goals first
    | (injection h with h1; subst h1; exact parseLLMResponseCore_ok_fields ‹_›)
    | exact absurd h (by simp)
    | exact ⟨(createErrorDecision_ok_fields h).1, (createErrorDecision_ok_fields h).2.1,
        (createErrorDecision_ok_fields h).2.2.1, (createErrorDecision_ok_fields h).2.2.2.2⟩

theorem processActionCore_ok_fields {env : Env} {st : EngineState}
    {action : InterceptedAction} {d : Decision} {st' : EngineState}
    {sleeps : List Nat}
    (h : processActionCore env st action = (.ok d, st', sleeps)) :
    d.action_id = action.action_id ∧ d.source_agent = action.source_agent ∧
      d.target_tool = action.target_tool ∧
      (d.decision = .BLOCK → d.severity ≠ none) := by
  unfold processActionCore at h
  dsimp only [] at h
  repeat' split at h
  all_goals simp only [Prod.mk.injEq] at h
  all_goals obtain ⟨h1, -, -⟩ := h
  all_goals try exact Except.noConfusion h1
  all_goals injection h1 with h1
  all_goals subst h1
  all_goals first
    | exact ⟨(mkDecision_ok_fields ‹_›).1, (mkDecision_ok_fields ‹_›).2.1,
        (mkDecision_ok_fields ‹_›).2.2.1, (mkDecision_ok_fields ‹_›).2.2.2.2⟩
    | exact parseLLMResponse_ok_fields ‹_›

theorem processAction_ok_fields {env : Env} {st : EngineState}
    {action : InterceptedAction} {d : Decision} {st' : EngineState}
    {sleeps : List Nat}
    (h : processAction env st action = (.ok d, st', sleeps)) :
    d.action_id = action.action_id ∧ d.source_agent = action.source_agent ∧
      d.target_tool = action.target_tool ∧
      (d.decision = .BLOCK → d.severity ≠ none) := by
  unfold processAction at h
  repeat' split at h
  all_goals simp only [Prod.mk.injEq] at h
  all_goals obtain ⟨h1, h2, h3⟩ := h
  all_goals try exact Except.noConfusion h1
  all_goals injection h1 with h1
  all_goals subst h1
  all_goals try subst h2
  all_goals try subst h3
  all_goals first
    | exact processActionCore_ok_fields ‹_›
    | exact ⟨(mkDecision_ok_fields ‹_›).1, (mkDecision_ok_fields ‹_›).2.1,
        (mkDecision_ok_fields ‹_›).2.2.1, (mkDecision_ok_fields ‹_›).2.2.2.2⟩

theorem createErrorDecision_eval (action : InterceptedAction) (msg : String)
    (now : Nat) (h10 : 10 ≤ ("System error: " ++ msg).length)
    (h1000 : ("System error: " ++ msg).length ≤ 1000) :
    createErrorDecision action msg now = .ok
      { action_id := action.action_id, source_agent := action.source_agent,
        target_tool := action.target_tool, decision := .BLOCK,
        rationale := "System error: " ++ msg, severity := some .HIGH,
        timestamp := now, applied_rules := ["SYSTEM-ERROR"] } := by
  unfold createErrorDecision mkDecision
  rw [if_neg (by omega), if_neg (by omega), if_neg (by simp)]

/-- When the oracle call succeeded and some rules were resolved, the
verdict of `process_action` is whatever `_parse_llm_response` returned
(and the statistics fold it in). -/
theorem processAction_ok_of_parse (env : Env) (st : EngineState)
    (action : InterceptedAction) (c : String) (sleeps : List Nat) (d : Decision)
    (hcall : callLLMWithRetry env.oracle = (.ok c, sleeps))
    (hrules : getRelevantPolicies
      ((ensureFreshPolicies env.storeReply env.now st).1).policy_cache
      action.target_tool ≠ [])
    (hparse : parseLLMResponse c action
      (getRelevantPolicies
        ((ensureFreshPolicies env.storeReply env.now st).1).policy_cache
        action.target_tool) env.now = .ok d) :
    processAction env st action =
      (.ok d, updateStats d (ensureFreshPolicies env.storeReply env.now st).1,
       sleeps) := by
  unfold processAction processActionCore
  dsimp only []
  rw [if_neg (by simp [List.isEmpty_iff, hrules]), hcall]
  dsimp only []
  rw [hparse]

/-! ## Claim C2 -/

/-- Claim C2: for every Decision produced by the pipeline (oracle-derived,
parse-error, or emergency), decision = BLOCK implies severity is non-null;
in particular an oracle reply that says BLOCK but omits severity or gives
an invalid severity value cannot yield a BLOCK verdict with null severity.
Every `Decision` the pipeline returns is built by the validating
constructor, which rejects BLOCK with a null severity; a BLOCK reply
without severity therefore fails construction and is converted into the
BLOCK/HIGH error decision instead. -/
theorem blockImpliesSeverity (env : Env) (st : EngineState)
    (action : InterceptedAction) (d : Decision) (st' : EngineState)
    (sleeps : List Nat)
    (h : processAction env st action = (.ok d, st', sleeps))
    (hb : d.decision = .BLOCK) : d.severity ≠ none :=
  (processAction_ok_fields h).2.2.2 hb

/-- Witness for C2: the concrete parse-failure run returns a BLOCK verdict,
and the theorem yields that its severity is non-null. -/
theorem blockImpliesSeverityWitness : dProse.severity ≠ none :=
  blockImpliesSeverity (envWith proseReply) st0 actC dProse
    { st0 with stats_total := 1, stats_block := 1 } []
    (by rfl) (by rfl)

/-! ## Claim C10 -/

/-- Claim C10: at the system boundary, any InterceptedAction whose
source_agent does not start with "agent_" has that prefix prepended during
validation, so every verdict's source_agent field begins with "agent_" and
may differ from the caller-submitted value. -/
theorem sourceAgentPrefixed (a a' : InterceptedAction) (env : Env)
    (st : EngineState) (d : Decision) (st' : EngineState) (sleeps : List Nat) :
    (validateInterceptedAction a = .ok a' →
      pyStartsWith a'.source_agent "agent_" = true) ∧
    (validateInterceptedAction a = .ok a' →
      pyStartsWith a.source_agent "agent_" = false →
      a'.source_agent = "agent_" ++ a.source_agent ∧
        a'.source_agent ≠ a.source_agent) ∧
    (processAction env st a' = (.ok d, st', sleeps) →
      d.source_agent = a'.source_agent) := by
  refine ⟨?_, ?_, ?_⟩
  · intro h
    unfold validateInterceptedAction at h
    split at h
    · exact absurd h (by simp)
    split at h
    · exact absurd h (by simp)
    injection h with h
    subst h
    dsimp only []
    split
    · assumption
    · unfold pyStartsWith
      simp [String.toList]
  · intro h hfalse
    unfold validateInterceptedAction at h
    split at h
    · exact absurd h (by simp)
    split at h
    · exact absurd h (by simp)
    injection h with h
    subst h
    dsimp only []
    rw [if_neg (by simp [hfalse])]
    refine ⟨rfl, ?_⟩
    intro hcontr
    have hlen := congrArg String.length hcontr
    rw [String.length_append] at hlen
    have h6 : ("agent_" : String).length = 6 := by decide
    omega
  · intro h
    exact (processAction_ok_fields h).2.1

/-- Witness for C10: validating a raw action whose agent name lacks the
marker rewrites it, and the verdict of a concrete run carries the
validated name. -/
theorem sourceAgentPrefixedWitness :
    pyStartsWith "agent_bot" "agent_" = true ∧
      ("agent_bot" : String) = "agent_" ++ "bot" ∧
      dProse.source_agent = actC.source_agent := by
  have h := sourceAgentPrefixed
    { action_id := "a1", source_agent := "bot",
      target_tool := "Slack_API_PostMessage", tool_arguments := [],
      user_context := none, timestamp := 1000 } actC
    (envWith proseReply) st0 dProse
    { st0 with stats_total := 1, stats_block := 1 } []
  refine ⟨h.1 (by rfl), (h.2.1 (by rfl) (by rfl)).1, ?_⟩
  exact h.2.2 (by rfl)

/-! ## Claim C1 (counterexample) -/

/-- Counterexample to C1 as stated: the prose oracle reply fails every
extraction strategy, yet the verdict's applied_rules is ["SYSTEM-ERROR"],
not ["PARSE-ERROR"]. -/
theorem parseErrorTagCounterexample :
    extractJsonFromResponse (pyStrip proseReply) = none ∧
      (processAction (envWith proseReply) st0 actC).1 = .ok dProse ∧
      dProse.applied_rules ≠ ["PARSE-ERROR"] := by
  refine ⟨by rfl, ?_, by decide⟩
  have : processAction (envWith proseReply) st0 actC =
      (.ok dProse, { st0 with stats_total := 1, stats_block := 1 }, []) := by rfl
  rw [this]

/-- Claim C1 as amended: an oracle reply from which no extraction strategy
yields parseable JSON, or whose extracted JSON is undecodable, or whose
JSON fails format validation (missing required fields or an unrecognized
enum value), makes process_action return a verdict with decision = BLOCK,
severity = HIGH and applied_rules = ["SYSTEM-ERROR"] — not
["PARSE-ERROR"]; the two failure classes are distinguished only by the
rationale text ("JSON parsing error: ..." when the extracted text is not
decodable JSON, "LLM output validation failed: ..." when no JSON was
found or the decoded JSON fails validation), not by the applied-rules
tag. -/
theorem parseErrorVerdictAmended (env : Env) (st : EngineState)
    (action : InterceptedAction) (c : String) (sleeps : List Nat)
    (jc : String) (data : Json)
    (hcall : callLLMWithRetry env.oracle = (.ok c, sleeps))
    (hrules : getRelevantPolicies
      ((ensureFreshPolicies env.storeReply env.now st).1).policy_cache
      action.target_tool ≠ []) :
    (extractJsonFromResponse (pyStrip c) = none →
      (processAction env st action).1 = .ok
        { action_id := action.action_id, source_agent := action.source_agent,
          target_tool := action.target_tool, decision := .BLOCK,
          rationale := "System error: LLM output validation failed: No JSON found in LLM response",
          severity := some .HIGH, timestamp := env.now,
          applied_rules := ["SYSTEM-ERROR"] }) ∧
    (extractJsonFromResponse (pyStrip c) = some jc → jsonLoads jc = none →
      (processAction env st action).1 = .ok
        { action_id := action.action_id, source_agent := action.source_agent,
          target_tool := action.target_tool, decision := .BLOCK,
          rationale := "System error: JSON parsing error: Expecting value",
          severity := some .HIGH, timestamp := env.now,
          applied_rules := ["SYSTEM-ERROR"] }) ∧
    (extractJsonFromResponse (pyStrip c) = some jc → jsonLoads jc = some data →
      validateDecisionFormat data = .ok false →
      (processAction env st action).1 = .ok
        { action_id := action.action_id, source_agent := action.source_agent,
          target_tool := action.target_tool, decision := .BLOCK,
          rationale := "System error: LLM output validation failed: Invalid decision format from LLM",
          severity := some .HIGH, timestamp := env.now,
          applied_rules := ["SYSTEM-ERROR"] }) := by
  refine ⟨?_, ?_, ?_⟩
  · intro hex
    have hcore : parseLLMResponseCore c action
        (getRelevantPolicies
          ((ensureFreshPolicies env.storeReply env.now st).1).policy_cache
          action.target_tool) env.now =
        .error (.valueError "No JSON found in LLM response") := by
      unfold parseLLMResponseCore
      dsimp only []
      rw [hex]
    have hparse : parseLLMResponse c action
        (getRelevantPolicies
          ((ensureFreshPolicies env.storeReply env.now st).1).policy_cache
          action.target_tool) env.now = .ok
        { action_id := action.action_id, source_agent := action.source_agent,
          target_tool := action.target_tool, decision := .BLOCK,
          rationale := "System error: LLM output validation failed: No JSON found in LLM response",
          severity := some .HIGH, timestamp := env.now,
          applied_rules := ["SYSTEM-ERROR"] } := by
      unfold parseLLMResponse
      rw [hcore]
      dsimp only []
      exact createErrorDecision_eval action
        "LLM output validation failed: No JSON found in LLM response" env.now
        (by decide) (by decide)
    rw [processAction_ok_of_parse env st action c sleeps _ hcall hrules hparse]
  · intro hex hld
    have hcore : parseLLMResponseCore c action
        (getRelevantPolicies
          ((ensureFreshPolicies env.storeReply env.now st).1).policy_cache
          action.target_tool) env.now =
        .error (.jsonDecodeError "Expecting value") := by
      unfold parseLLMResponseCore
      dsimp only []
      rw [hex]
      dsimp only []
      rw [hld]
    have hparse : parseLLMResponse c action
        (getRelevantPolicies
          ((ensureFreshPolicies env.storeReply env.now st).1).policy_cache
          action.target_tool) env.now = .ok
        { action_id := action.action_id, source_agent := action.source_agent,
          target_tool := action.target_tool, decision := .BLOCK,
          rationale := "System error: JSON parsing error: Expecting value",
          severity := some .HIGH, timestamp := env.now,
          applied_rules := ["SYSTEM-ERROR"] } := by
      unfold parseLLMResponse
      rw [hcore]
      dsimp only []
      exact createErrorDecision_eval action
        "JSON parsing error: Expecting value" env.now (by decide) (by decide)
    rw [processAction_ok_of_parse env st action c sleeps _ hcall hrules hparse]
  · intro hex hld hval
    have hcore : parseLLMResponseCore c action
        (getRelevantPolicies
          ((ensureFreshPolicies env.storeReply env.now st).1).policy_cache
          action.target_tool) env.now =
        .error (.valueError "Invalid decision format from LLM") := by
      unfold parseLLMResponseCore
      dsimp only []
      rw [hex]
      dsimp only []
      rw [hld]
      dsimp only []
      rw [hval]
      simp
    have hparse : parseLLMResponse c action
        (getRelevantPolicies
          ((ensureFreshPolicies env.storeReply env.now st).1).policy_cache
          action.target_tool) env.now = .ok
        { action_id := action.action_id, source_agent := action.source_agent,
          target_tool := action.target_tool, decision := .BLOCK,
          rationale := "System error: LLM output validation failed: Invalid decision format from LLM",
          severity := some .HIGH, timestamp := env.now,
          applied_rules := ["SYSTEM-ERROR"] } := by
      unfold parseLLMResponse
      rw [hcore]
      dsimp only []
      exact createErrorDecision_eval action
        "LLM output validation failed: Invalid decision format from LLM" env.now
        (by decide) (by decide)
    rw [processAction_ok_of_parse env st action c sleeps _ hcall hrules hparse]

/-- Witness for the amended C1 at the concrete prose reply: the first
failure class applies, and the run returns the BLOCK/HIGH/SYSTEM-ERROR
verdict. -/
theorem parseErrorVerdictAmendedWitness :
    (processAction (envWith proseReply) st0 actC).1 = .ok dProse :=
  (parseErrorVerdictAmended (envWith proseReply) st0 actC proseReply []
    "x" .null (by rfl) (by decide)).1 (by rfl)

/-! ## Claim C3 -/

set_option maxRecDepth 100000 in
/-- Counterexample to C3 as stated: a decision-path fault whose message is
1000 characters long makes the emergency BLOCK constructor itself violate
the 1000-character rationale bound, so process_action raises a
ValidationError to the caller instead of returning a verdict. -/
theorem longFaultPropagatesCounterexample :
    (processAction (envFailAll hugeMsg) st0 actC).1 =
      .error (.valueError "String should have at most 1000 characters") := by
  rfl

/-- Claim C3 as amended: every fault on the decision path yields the
emergency verdict with decision = BLOCK and severity = HIGH, provided the
emergency rationale (the 35-character prefix plus the fault message) fits
pydantic's 1000-character bound; when it does not, the emergency
constructor itself raises and the exception propagates to the caller; and
in no case does a fault produce an ALLOW verdict. -/
theorem failClosedAmended (env : Env) (st : EngineState)
    (action : InterceptedAction) (e : PyErr) (d : Decision)
    (st' : EngineState) (sleeps : List Nat)
    (hcore : processActionCore env st action = (.error e, st', sleeps)) :
    (("System error in policy evaluation: " ++ pyErrStr e).length ≤ 1000 →
      (processAction env st action).1 = .ok
        { action_id := action.action_id, source_agent := action.source_agent,
          target_tool := action.target_tool, decision := .BLOCK,
          rationale := "System error in policy evaluation: " ++ pyErrStr e,
          severity := some .HIGH, timestamp := env.now,
          applied_rules := ["SYSTEM-ERROR"] }) ∧
    (("System error in policy evaluation: " ++ pyErrStr e).length > 1000 →
      (processAction env st action).1 =
        .error (.valueError "String should have at most 1000 characters")) ∧
    ((processAction env st action).1 = .ok d → d.decision = .BLOCK) := by
  have hpre : ("System error in policy evaluation: " : String).length = 35 := by
    decide
  have hlen : ("System error in policy evaluation: " ++ pyErrStr e).length =
      35 + (pyErrStr e).length := by
    rw [String.length_append, hpre]
  refine ⟨?_, ?_, ?_⟩
  · intro hfits
    unfold processAction
    rw [hcore]
    dsimp only []
    unfold mkDecision
    rw [if_neg (by omega), if_neg (by omega), if_neg (by simp)]
  · intro hover
    unfold processAction
    rw [hcore]
    dsimp only []
    unfold mkDecision
    rw [if_neg (by omega), if_pos (by omega)]
  · intro hok
    by_cases hfits :
        ("System error in policy evaluation: " ++ pyErrStr e).length ≤ 1000
    · unfold processAction at hok
      rw [hcore] at hok
      dsimp only [] at hok
      unfold mkDecision at hok
      rw [if_neg (by omega), if_neg (by omega), if_neg (by simp)] at hok
      injection hok with hok
      rw [← hok]
    · unfold processAction at hok
      rw [hcore] at hok
      dsimp only [] at hok
      unfold mkDecision at hok
      rw [if_neg (by omega), if_pos (by omega)] at hok
      exact Except.noConfusion hok

/-- Witness for the amended C3: the oracle raising a short "boom" on all
three attempts yields the emergency BLOCK/HIGH verdict. -/
theorem failClosedAmendedWitness :
    (processAction (envFailAll "boom") st0 actC).1 = .ok
      { action_id := "a1", source_agent := "agent_bot",
        target_tool := "Slack_API_PostMessage", decision := .BLOCK,
        rationale := "System error in policy evaluation: LLM call failed after 3 attempts: boom",
        severity := some .HIGH, timestamp := 1030,
        applied_rules := ["SYSTEM-ERROR"] } :=
  (failClosedAmended (envFailAll "boom") st0 actC
    (.exception "LLM call failed after 3 attempts: boom")
    { action_id := "a1", source_agent := "agent_bot",
      target_tool := "Slack_API_PostMessage", decision := .BLOCK,
      rationale := "System error in policy evaluation: LLM call failed after 3 attempts: boom",
      severity := some .HIGH, timestamp := 1030,
      applied_rules := ["SYSTEM-ERROR"] }
    st0 [1, 2] (by rfl)).1 (by decide)

/-! ## Claim C4 -/

set_option maxRecDepth 100000 in
/-- Counterexample to C4 as stated: with the oracle raising a
1000-character message on every attempt, the retry loop makes its three
attempts with the two backoff sleeps and then raises, but process_action
does not turn the raise into a BLOCK/HIGH verdict — the emergency
constructor violates the rationale bound and the exception propagates to
the caller, so the unrestricted "failing on all three attempts results in
a BLOCK verdict with severity HIGH" clause fails. -/
theorem oracleRetryExhaustionCounterexample :
    callLLMWithRetry (envFailAll hugeMsg).oracle =
      (.error ("LLM call failed after 3 attempts: " ++ hugeMsg), [1, 2]) ∧
      (processAction (envFailAll hugeMsg) st0 actC).1.isOk = false :=
  ⟨by rfl, by rfl⟩

/-- The three iterations of the retry loop, unrolled. -/
theorem callLLMWithRetry_unroll (o : Nat → Except String String) :
    callLLMWithRetry o =
      match attemptOutcome (o 0) with
      | .ok c => (.ok c, [])
      | .error _ =>
        match attemptOutcome (o 1) with
        | .ok c => (.ok c, [1])
        | .error _ =>
          match attemptOutcome (o 2) with
          | .ok c => (.ok c, [1, 2])
          | .error e =>
            (.error ("LLM call failed after 3 attempts: " ++ e), [1, 2]) := by
  rcases h0 : attemptOutcome (o 0) with e0 | c0 <;>
    rcases h1 : attemptOutcome (o 1) with e1 | c1 <;>
      rcases h2 : attemptOutcome (o 2) with e2 | c2 <;>
        simp [callLLMWithRetry, callLLMRetryAux, h0, h1, h2]
  rw [show ("LLM call failed after " ++ toString 3 ++ " attempts: " : String) =
    "LLM call failed after 3 attempts: " from by decide]

/-- The emergency path of `process_action` when the fault message fits the
rationale bound: the caller receives the BLOCK/HIGH verdict. -/
theorem processAction_emergency_ok (env : Env) (st : EngineState)
    (action : InterceptedAction) (e : PyErr) (st' : EngineState)
    (sleeps : List Nat)
    (hcore : processActionCore env st action = (.error e, st', sleeps))
    (hfits : ("System error in policy evaluation: " ++ pyErrStr e).length ≤ 1000) :
    processAction env st action =
      (.ok { action_id := action.action_id, source_agent := action.source_agent,
             target_tool := action.target_tool, decision := .BLOCK,
             rationale := "System error in policy evaluation: " ++ pyErrStr e,
             severity := some .HIGH, timestamp := env.now,
             applied_rules := ["SYSTEM-ERROR"] }, st', sleeps) := by
  have hpre : ("System error in policy evaluation: " : String).length = 35 := by
    decide
  have hlen : ("System error in policy evaluation: " ++ pyErrStr e).length =
      35 + (pyErrStr e).length := by
    rw [String.length_append, hpre]
  unfold processAction
  rw [hcore]
  dsimp only []
  unfold mkDecision
  rw [if_neg (by omega), if_neg (by omega), if_neg (by simp)]

/-- Claim C4 as amended: the oracle retry loop makes up to 3 attempts (the
outcome depends only on the first three attempt results); a response with
empty content counts as a failure and is retried; a call failing twice
then succeeding on the third attempt sleeps exactly twice, for 1s then
2s, and returns the third attempt's response; a call failing on all three
attempts raises, resulting in a BLOCK verdict with severity HIGH whenever
the raised message fits the verdict's bounded rationale — a longer
provider message instead makes the emergency constructor raise (see the
counterexample above). -/
theorem oracleRetryPolicy (o o' : Nat → Except String String)
    (e1 e2 e3 c : String) (env : Env) (st : EngineState)
    (action : InterceptedAction) :
    (o 0 = o' 0 → o 1 = o' 1 → o 2 = o' 2 →
      callLLMWithRetry o = callLLMWithRetry o') ∧
    ((o 0 = .error e1 ∨ o 0 = .ok "") → (o 1 = .error e2 ∨ o 1 = .ok "") →
      o 2 = .ok c → c ≠ "" → callLLMWithRetry o = (.ok c, [1, 2])) ∧
    ((o 0 = .error e1 ∨ o 0 = .ok "") → (o 1 = .error e2 ∨ o 1 = .ok "") →
      o 2 = .error e3 →
      callLLMWithRetry o =
        (.error ("LLM call failed after 3 attempts: " ++ e3), [1, 2])) ∧
    (env.oracle = o → (o 0 = .error e1 ∨ o 0 = .ok "") →
      (o 1 = .error e2 ∨ o 1 = .ok "") → o 2 = .error e3 →
      getRelevantPolicies
        ((ensureFreshPolicies env.storeReply env.now st).1).policy_cache
        action.target_tool ≠ [] →
      ("LLM call failed after 3 attempts: " ++ e3).length ≤ 965 →
      (processAction env st action).1 = .ok
        { action_id := action.action_id, source_agent := action.source_agent,
          target_tool := action.target_tool, decision := .BLOCK,
          rationale := "System error in policy evaluation: " ++
            ("LLM call failed after 3 attempts: " ++ e3),
          severity := some .HIGH, timestamp := env.now,
          applied_rules := ["SYSTEM-ERROR"] }) := by
  have hfail3 : (o 0 = .error e1 ∨ o 0 = .ok "") →
      (o 1 = .error e2 ∨ o 1 = .ok "") → o 2 = .error e3 →
      callLLMWithRetry o =
        (.error ("LLM call failed after 3 attempts: " ++ e3), [1, 2]) := by
    intro h0 h1 h2
    rw [callLLMWithRetry_unroll]
    rcases h0 with h0 | h0 <;> rcases h1 with h1 | h1 <;>
      simp [attemptOutcome, h0, h1, h2]
  refine ⟨?_, ?_, hfail3, ?_⟩
  · intro h0 h1 h2
    rw [callLLMWithRetry_unroll o, callLLMWithRetry_unroll o', h0, h1, h2]
  · intro h0 h1 h2 hc
    rw [callLLMWithRetry_unroll]
    rcases h0 with h0 | h0 <;> rcases h1 with h1 | h1 <;>
      simp [attemptOutcome, h0, h1, h2, hc]
  · intro horacle h0 h1 h2 hrules hfit
    have hcore : processActionCore env st action =
        (.error (.exception ("LLM call failed after 3 attempts: " ++ e3)),
         (ensureFreshPolicies env.storeReply env.now st).1, [1, 2]) := by
      unfold processActionCore
      dsimp only []
      rw [if_neg (by simp [List.isEmpty_iff, hrules]), horacle,
        hfail3 h0 h1 h2]
    have hfits : ("System error in policy evaluation: " ++
        pyErrStr (.exception ("LLM call failed after 3 attempts: " ++ e3))).length
        ≤ 1000 := by
      have hpre : ("System error in policy evaluation: " : String).length = 35 := by
        decide
      simp only [pyErrStr, String.length_append, hpre]
      rw [String.length_append] at hfit
      omega
    rw [processAction_emergency_ok env st action _ _ _ hcore hfits]
    rfl

/-- Witness for C4: an oracle raising on the first attempt, returning
empty content on the second, and succeeding on the third sleeps 1s then
2s and returns the third response. -/
theorem oracleRetryPolicyWitness :
    callLLMWithRetry
        (fun i => if i = 0 then .error "a" else if i = 1 then .ok "" else .ok "done") =
      (.ok "done", [1, 2]) :=
  (oracleRetryPolicy
    (fun i => if i = 0 then .error "a" else if i = 1 then .ok "" else .ok "done")
    (fun i => if i = 0 then .error "a" else if i = 1 then .ok "" else .ok "done")
    "a" "" "" "done" (envWith "x") st0 actC).2.1
    (Or.inl rfl) (Or.inr rfl) rfl (by decide)

/-! ## Claim C5 -/

/-- Claim C5 evaluated at its failing input: the staleness test uses
`timedelta.seconds` — the whole-second remainder modulo one day — instead
of the total elapsed time, so an action processed exactly one day after
the last refresh (86400 s, far beyond the 60 s TTL) triggers no refresh
at all, while 61 s triggers exactly one and 60 s (at most the TTL)
correctly triggers none. -/
theorem ttlDayWraparoundBug :
    ensureFreshPolicies (.ok []) (1000 + 86400) st0 = (st0, false) ∧
      86400 > 60 ∧
      (ensureFreshPolicies (.ok []) (1000 + 61) st0).2 = true ∧
      ensureFreshPolicies (.ok []) (1000 + 60) st0 = (st0, false) :=
  ⟨by rfl, by decide, by rfl, by rfl⟩

/-! ## Claim C6 -/

/-- Counterexample to C6 as stated: a store reply whose processing faults
(a non-dict element, raising outside the per-record handler) does not
leave the previous index as it was — the cache was already cleared in
place, so the engine is left with an empty index. -/
theorem refreshClearsCacheCounterexample :
    (loadActivePolicies (.ok [.malformed]) 2000 st0).policy_cache = [] ∧
      st0.policy_cache ≠ [] :=
  ⟨by rfl, by decide⟩

/-- Claim C6 as amended: refresh clears the index in place and rebuilds it
from the store reply alone (the rebuilt contents are independent of the
previous index); a failure while pulling the reply leaves the state
untouched; an individually malformed rule record is skipped without
affecting the other loaded rules; but a fault while processing the reply
after a successful pull leaves the cleared, partially rebuilt index (with
the timestamp not advanced) rather than the previous one. -/
theorem refreshFailureAmended (st st₁ st₂ : EngineState) (now : Nat)
    (entries pre post : List StoreEntry) (c : PolicyCache) (p : PolicyRecord)
    (rid desc tgt cond sev act : Option String) :
    loadActivePolicies (.error ()) now st = st ∧
    (p.rules = .dict rid desc tgt cond sev act →
      buildCacheEntry p rid desc tgt cond sev act = none →
      processPolicies (pre ++ .record p :: post) c =
        processPolicies (pre ++ post) c) ∧
    (loadActivePolicies (.ok entries) now st₁).policy_cache =
      (loadActivePolicies (.ok entries) now st₂).policy_cache ∧
    (processPolicies entries [] = (c, false) →
      loadActivePolicies (.ok entries) now st = { st with policy_cache := c }) := by
  refine ⟨by rfl, ?_, ?_, ?_⟩
  · intro hr hb
    have hskip : ∀ cc, cacheInsertOne cc p = cc := by
      intro cc
      unfold cacheInsertOne
      split
      · rfl
      · rw [hr]
        dsimp only []
        rw [hb]
    induction pre generalizing c with
    | nil => simp [processPolicies, hskip]
    | cons e rest ih =>
      cases e with
      | malformed => simp [processPolicies]
      | record q => simp [processPolicies, ih]
  · unfold loadActivePolicies
    dsimp only []
    rcases h : processPolicies entries [] with ⟨cache, flag⟩
    cases flag <;> rfl
  · intro h
    unfold loadActivePolicies
    dsimp only []
    rw [h]

/-- Witness for the amended C6: a concrete invalid record between two
well-formed runs of the loop is skipped. -/
theorem refreshFailureAmendedWitness :
    processPolicies ([] ++ .record pBad :: []) [] = processPolicies ([] ++ []) [] :=
  (refreshFailureAmended st0 st0 st0 2000 [] [] [] [] pBad
    (some "BAD") none none none none none).2.1 rfl rfl

/-! ## Claim C8 -/

/-- Counterexample to C8 as stated: the emergency BLOCK verdict (oracle
raising on all three attempts) is returned to the caller, yet the total
counter is not incremented. -/
theorem emergencyStatsCounterexample :
    (processAction (envFailAll "boom") st0 actC).2.1.stats_total =
        st0.stats_total ∧
      (processAction (envFailAll "boom") st0 actC).1 = .ok
        { action_id := "a1", source_agent := "agent_bot",
          target_tool := "Slack_API_PostMessage", decision := .BLOCK,
          rationale := "System error in policy evaluation: LLM call failed after 3 attempts: boom",
          severity := some .HIGH, timestamp := 1030,
          applied_rules := ["SYSTEM-ERROR"] } :=
  ⟨by rfl, by rfl⟩

/-- A cache refresh never touches the decision counters. -/
theorem ensureFresh_stats (r : Except Unit (List StoreEntry)) (now : Nat)
    (st : EngineState) :
    (ensureFreshPolicies r now st).1.stats_total = st.stats_total ∧
      (ensureFreshPolicies r now st).1.stats_allow = st.stats_allow ∧
      (ensureFreshPolicies r now st).1.stats_block = st.stats_block ∧
      (ensureFreshPolicies r now st).1.stats_flag = st.stats_flag := by
  unfold ensureFreshPolicies loadActivePolicies
  repeat' split
  all_goals simp

/-- The counter update `_update_stats` bumps the total and exactly the matching counter. -/
theorem updateStats_spec (d : Decision) (s : EngineState) :
    (updateStats d s).stats_total = s.stats_total + 1 ∧
      (d.decision = .ALLOW → (updateStats d s).stats_allow = s.stats_allow + 1) ∧
      (d.decision = .BLOCK → (updateStats d s).stats_block = s.stats_block + 1) ∧
      (d.decision = .FLAG → (updateStats d s).stats_flag = s.stats_flag + 1) := by
  unfold updateStats
  rcases hd : d.decision <;> simp [hd]

/-- The engine state returned by the `try` body of `process_action`: the
refreshed state folded through `_update_stats` on success, the refreshed
state unchanged on a fault. -/
theorem processActionCore_state (env : Env) (st : EngineState)
    (action : InterceptedAction) (d : Decision) (e : PyErr)
    (st' : EngineState) (sleeps : List Nat) :
    (processActionCore env st action = (.ok d, st', sleeps) →
      st' = updateStats d (ensureFreshPolicies env.storeReply env.now st).1) ∧
    (processActionCore env st action = (.error e, st', sleeps) →
      st' = (ensureFreshPolicies env.storeReply env.now st).1) := by
  constructor
  · intro h
    unfold processActionCore at h
    dsimp only [] at h
    repeat' split at h
    all_goals simp only [Prod.mk.injEq] at h
    all_goals obtain ⟨h1, h2, -⟩ := h
    all_goals try exact Except.noConfusion h1
    all_goals injection h1 with h1
    all_goals subst h1
    all_goals exact h2.symm
  · intro h
    unfold processActionCore at h
    dsimp only [] at h
    repeat' split at h
    all_goals simp only [Prod.mk.injEq] at h
    all_goals obtain ⟨h1, h2, -⟩ := h
    all_goals try exact Except.noConfusion h1
    all_goals exact h2.symm

/-- Claim C8 as amended: every verdict finalized on the normal path — the
ALLOW-by-default shortcut, oracle-derived verdicts and parse-error
verdicts alike — increments the total counter and the matching
allow/block/flag counter by one before being returned; the emergency
BLOCK verdict, however, is returned without the counters being updated. -/
theorem statsUpdateAmended (env : Env) (st : EngineState)
    (action : InterceptedAction) (d : Decision) (st' : EngineState)
    (sleeps : List Nat) (e : PyErr) :
    (processActionCore env st action = (.ok d, st', sleeps) →
      processAction env st action = (.ok d, st', sleeps) ∧
      st'.stats_total = st.stats_total + 1 ∧
      (d.decision = .ALLOW → st'.stats_allow = st.stats_allow + 1) ∧
      (d.decision = .BLOCK → st'.stats_block = st.stats_block + 1) ∧
      (d.decision = .FLAG → st'.stats_flag = st.stats_flag + 1)) ∧
    (processActionCore env st action = (.error e, st', sleeps) →
      st'.stats_total = st.stats_total ∧
      (processAction env st action).2.1.stats_total = st.stats_total) := by
  constructor
  · intro h
    have hst :=
      (processActionCore_state env st action d e st' sleeps).1 h
    have hfresh := ensureFresh_stats env.storeReply env.now st
    have hupd :=
      updateStats_spec d (ensureFreshPolicies env.storeReply env.now st).1
    refine ⟨?_, ?_, ?_, ?_, ?_⟩
    · unfold processAction
      rw [h]
    · rw [hst, hupd.1, hfresh.1]
    · intro ha
      rw [hst, hupd.2.1 ha, hfresh.2.1]
    · intro hb
      rw [hst, hupd.2.2.1 hb, hfresh.2.2.1]
    · intro hf
      rw [hst, hupd.2.2.2 hf, hfresh.2.2.2]
  · intro h
    have hst :=
      (processActionCore_state env st action d e st' sleeps).2 h
    have hfresh := ensureFresh_stats env.storeReply env.now st
    refine ⟨by rw [hst, hfresh.1], ?_⟩
    unfold processAction
    rw [h]
    dsimp only []
    split
    · dsimp only []
      rw [hst, hfresh.1]
    · dsimp only []
      rw [hst, hfresh.1]

/-- Witness for the amended C8: the parse-error verdict of the concrete
prose run is returned with the total and block counters incremented. -/
theorem statsUpdateAmendedWitness :
    processAction (envWith proseReply) st0 actC =
        (.ok dProse, { st0 with stats_total := 1, stats_block := 1 }, []) ∧
      ({ st0 with stats_total := 1, stats_block := 1 } : EngineState).stats_total =
        st0.stats_total + 1 ∧
      (dProse.decision = .ALLOW →
        ({ st0 with stats_total := 1, stats_block := 1 } : EngineState).stats_allow =
          st0.stats_allow + 1) ∧
      (dProse.decision = .BLOCK →
        ({ st0 with stats_total := 1, stats_block := 1 } : EngineState).stats_block =
          st0.stats_block + 1) ∧
      (dProse.decision = .FLAG →
        ({ st0 with stats_total := 1, stats_block := 1 } : EngineState).stats_flag =
          st0.stats_flag + 1) :=
  (statsUpdateAmended (envWith proseReply) st0 actC dProse
    { st0 with stats_total := 1, stats_block := 1 } []
    (.exception "unused")).1 (by rfl)

/-! ## Claim C9 -/

/-- Claim C9: an oracle reply that parses and validates successfully but
whose rationale string is shorter than 10 characters fails Decision
construction (pydantic's min_length) and is converted into a BLOCK
verdict with severity HIGH and applied_rules ["SYSTEM-ERROR"], even when
the oracle's decision was ALLOW.  Stated over every reply whose extracted
JSON decodes to an ALLOW decision with an arbitrary short rationale (this
data passes `_validate_decision_format`, which never checks the rationale
length). -/
theorem shortRationaleConverted (content : String)
    (action : InterceptedAction) (rules : List CacheEntry) (now : Nat)
    (jc rs : String)
    (hex : extractJsonFromResponse (pyStrip content) = some jc)
    (hld : jsonLoads jc =
      some (.obj [("decision", .str "ALLOW"), ("rationale", .str rs)]))
    (hlen : rs.length < 10) :
    validateDecisionFormat
        (.obj [("decision", .str "ALLOW"), ("rationale", .str rs)]) = .ok true ∧
      parseLLMResponse content action rules now = .ok
        { action_id := action.action_id, source_agent := action.source_agent,
          target_tool := action.target_tool, decision := .BLOCK,
          rationale := "System error: LLM output validation failed: String should have at least 10 characters",
          severity := some .HIGH, timestamp := now,
          applied_rules := ["SYSTEM-ERROR"] } := by
  refine ⟨by rfl, ?_⟩
  have hcore : parseLLMResponseCore content action rules now =
      mkDecision action.action_id action.source_agent action.target_tool
        .ALLOW (pyTake rs 1000) none now
        (rules.map (fun e => e.rule.rule_id)) := by
    unfold parseLLMResponseCore
    dsimp only []
    rw [hex]
    dsimp only []
    rw [hld]
    rfl
  have hshort : (pyTake rs 1000).length < 10 := by
    have h1 : (pyTake rs 1000).length = min 1000 rs.length := by
      unfold pyTake
      show (rs.toList.take 1000).length = min 1000 rs.length
      rw [List.length_take]
      rfl
    omega
  have hmk : mkDecision action.action_id action.source_agent
      action.target_tool .ALLOW (pyTake rs 1000) none now
      (rules.map (fun e => e.rule.rule_id)) =
      .error (.valueError "String should have at least 10 characters") := by
    unfold mkDecision
    rw [if_pos hshort]
  unfold parseLLMResponse
  rw [hcore, hmk]
  dsimp only []
  exact createErrorDecision_eval action
    "LLM output validation failed: String should have at least 10 characters"
    now (by decide) (by decide)

/-- Witness for C9: the concrete ALLOW reply with the 5-character
rationale "short" is converted into the BLOCK/HIGH/SYSTEM-ERROR verdict. -/
theorem shortRationaleConvertedWitness :
    parseLLMResponse "\x7b\"decision\": \"ALLOW\", \"rationale\": \"short\"\x7d"
        actC [entryDP] 1030 = .ok
      { action_id := "a1", source_agent := "agent_bot",
        target_tool := "Slack_API_PostMessage", decision := .BLOCK,
        rationale := "System error: LLM output validation failed: String should have at least 10 characters",
        severity := some .HIGH, timestamp := 1030,
        applied_rules := ["SYSTEM-ERROR"] } :=
  (shortRationaleConverted
    "\x7b\"decision\": \"ALLOW\", \"rationale\": \"short\"\x7d" actC [entryDP]
    1030 "\x7b\"decision\": \"ALLOW\", \"rationale\": \"short\"\x7d" "short"
    (by rfl) (by rfl) (by decide)).2

/-! ## Claim C7 -/

/-- A character below the lowercase range is fixed by `Char.toUpper`. -/
theorem toUpper_fix (c : Char) (h : c.toNat ≤ 90) : c.toUpper = c := by
  unfold Char.toUpper
  dsimp only []
  rw [if_neg]
  omega

/-- A rule id accepted by the `PolicyRule` pattern is already uppercase:
uppercasing the oracle-supplied ids therefore makes the containment test
case-insensitive against the resolved ids. -/
theorem ruleId_upper_fixed (s : String) (h : ruleIdPatternOk s = true) :
    sUpper s = s := by
  unfold ruleIdPatternOk at h
  unfold sUpper
  split at h
  case h_2 => exact absurd h (by simp)
  case h_1 a b d x y z heq =>
    simp only [decide_eq_true_eq] at h
    obtain ⟨ha, hb, hd, hx, hy, hz⟩ := h
    subst hd
    rw [heq]
    simp only [List.map]
    rw [toUpper_fix a (by omega), toUpper_fix b (by omega),
      toUpper_fix x (by omega), toUpper_fix y (by omega),
      toUpper_fix z (by omega),
      show ('-').toUpper = '-' from by decide, ← heq]
    rfl

/-- Claim C7: applied-rule reconciliation.  When the oracle supplies an
`applied_rules` list from which at least one uppercased id matches a
resolved rule id, the verdict keeps exactly that filtered subset (rule
ids pass validation only in uppercase, so the match is case-insensitive,
first conjunct); when the list is absent or none of its entries validate,
an ALLOW verdict receives the full resolved rule-id set, and a BLOCK or
FLAG verdict receives the resolved rules whose id or description occurs
in the lowercased rationale, falling back to the full resolved set when
none occurs. -/
theorem appliedRulesReconciliation (kvs : List (String × Json))
    (rules : List CacheEntry) (xs : List Json) (dstr rs rid : String) :
    (ruleIdPatternOk rid = true → sUpper rid = rid) ∧
    (dictFind kvs "applied_rules" = some (.arr xs) →
      (xs.map (fun j => sUpper (pyStr j))).filter
          (fun i => (rules.map (fun e => e.rule.rule_id)).contains i) ≠ [] →
      determineAppliedRules kvs rules = .ok
        ((xs.map (fun j => sUpper (pyStr j))).filter
          (fun i => (rules.map (fun e => e.rule.rule_id)).contains i))) ∧
    ((dictFind kvs "applied_rules" = none ∨
        (dictFind kvs "applied_rules" = some (.arr xs) ∧
          (xs.map (fun j => sUpper (pyStr j))).filter
            (fun i => (rules.map (fun e => e.rule.rule_id)).contains i) = [])) →
      dictFind kvs "decision" = some (.str dstr) →
      (sUpper dstr = "ALLOW" →
        determineAppliedRules kvs rules = .ok
          (rules.map (fun e => e.rule.rule_id))) ∧
      ((sUpper dstr = "BLOCK" ∨ sUpper dstr = "FLAG") →
        dictFind kvs "rationale" = some (.str rs) →
        determineAppliedRules kvs rules = .ok
          (if (rules.filter (fun e =>
                strContains (sLower rs) (sLower e.rule.rule_id) ||
                strContains (sLower rs) (sLower e.rule.description))).map
              (fun e => e.rule.rule_id) = []
           then rules.map (fun e => e.rule.rule_id)
           else (rules.filter (fun e =>
                strContains (sLower rs) (sLower e.rule.rule_id) ||
                strContains (sLower rs) (sLower e.rule.description))).map
              (fun e => e.rule.rule_id)))) := by
  refine ⟨ruleId_upper_fixed rid, ?_, ?_⟩
  · intro hsup hne
    unfold determineAppliedRules
    dsimp only []
    rw [hsup]
    dsimp only []
    rw [if_neg (by simp only [List.isEmpty_iff]; exact hne)]
  · intro hcond hdec
    constructor
    · intro hallow
      unfold determineAppliedRules
      dsimp only []
      rcases hcond with habs | ⟨hsup, hemp⟩
      · rw [habs]
        dsimp only []
        rw [hdec]
        dsimp only [Option.getD, pyUpperJ]
        rw [hallow]
        simp
      · rw [hsup]
        dsimp only []
        rw [if_pos (by simp only [List.isEmpty_iff]; exact hemp)]
        dsimp only []
        rw [hdec]
        dsimp only [Option.getD, pyUpperJ]
        rw [hallow]
        simp
    · intro hbf hrat
      unfold determineAppliedRules
      dsimp only []
      have htail : ∀ ds : String, ds = "BLOCK" ∨ ds = "FLAG" →
          ((if ds = "ALLOW" then
            .ok (rules.map (fun e => e.rule.rule_id))
          else if ds = "BLOCK" ∨ ds = "FLAG" then
            match pyLowerJ ((dictFind kvs "rationale").getD (.str "")) with
            | .error e => .error e
            | .ok rationale =>
              if ((rules.filter (fun e =>
                    strContains rationale (sLower e.rule.rule_id) ||
                    strContains rationale (sLower e.rule.description))).map
                  (fun e => e.rule.rule_id)).isEmpty
              then .ok (rules.map (fun e => e.rule.rule_id))
              else .ok ((rules.filter (fun e =>
                    strContains rationale (sLower e.rule.rule_id) ||
                    strContains rationale (sLower e.rule.description))).map
                  (fun e => e.rule.rule_id))
          else .ok []) : Except PyErr (List String)) = .ok
            (if (rules.filter (fun e =>
                  strContains (sLower rs) (sLower e.rule.rule_id) ||
                  strContains (sLower rs) (sLower e.rule.description))).map
                (fun e => e.rule.rule_id) = []
             then rules.map (fun e => e.rule.rule_id)
             else (rules.filter (fun e =>
                  strContains (sLower rs) (sLower e.rule.rule_id) ||
                  strContains (sLower rs) (sLower e.rule.description))).map
                (fun e => e.rule.rule_id)) := by
        intro ds hds
        have hne : ds ≠ "ALLOW" := by
          rcases hds with h | h <;> rw [h] <;> decide
        rw [if_neg hne, if_pos hds, hrat]
        dsimp only [Option.getD, pyLowerJ]
        by_cases hemp2 : (rules.filter (fun e =>
            strContains (sLower rs) (sLower e.rule.rule_id) ||
            strContains (sLower rs) (sLower e.rule.description))).map
            (fun e => e.rule.rule_id) = []
        · rw [if_pos (by simp only [List.isEmpty_iff]; exact hemp2), if_pos hemp2]
        · rw [if_neg (by simp only [List.isEmpty_iff]; exact hemp2), if_neg hemp2]
      rcases hcond with habs | ⟨hsup, hemp⟩
      · rw [habs]
        dsimp only []
        rw [hdec]
        dsimp only [Option.getD, pyUpperJ]
        exact htail (sUpper dstr) hbf
      · rw [hsup]
        dsimp only []
        rw [if_pos (by simp only [List.isEmpty_iff]; exact hemp)]
        dsimp only []
        rw [hdec]
        dsimp only [Option.getD, pyUpperJ]
        exact htail (sUpper dstr) hbf

/-- Witness for C7: a lowercase supplied id "dp-001" is kept (uppercased)
because it matches the resolved rule DP-001, whose id the pattern fixes
under uppercasing. -/
theorem appliedRulesReconciliationWitness :
    sUpper "DP-001" = "DP-001" ∧
      determineAppliedRules
        [("applied_rules", Json.arr [Json.str "dp-001"]),
         ("decision", Json.str "BLOCK"), ("rationale", Json.str "x")]
        [entryDP] = .ok ["DP-001"] :=
  ⟨(appliedRulesReconciliation [] [] [] "" "" "DP-001").1 (by decide),
   (appliedRulesReconciliation
     [("applied_rules", Json.arr [Json.str "dp-001"]),
      ("decision", Json.str "BLOCK"), ("rationale", Json.str "x")]
     [entryDP] [Json.str "dp-001"] "" "" "").2.1 (by rfl) (by decide)⟩

end OrchestraGuard
